import Mathlib

/-!
Verification of the cache / fetch orchestration core of the infohub bot
(`cache_manager.py`, `api_client.py`, `market_digest.py`, `news_digest.py`)
against its natural-language specification.

Conventions of the shallow embedding:
* Timestamps are integers (seconds) for the ISO-8601 based `CacheManager`
  and rationals (Python `time.time()` floats) for `MarketDigest` /
  `NewsDigest`; retry delays are rationals.
* JSON payloads are an explicit `Json` AST; the text layer of
  `json.dump` / `json.load` is abstracted as storing the AST, with parse
  failures represented by a `FileState` constructor.
* Python dicts are association lists (`List (String × _)`), updated in
  insertion order as CPython does.
* Fallible Python code is embedded with `PyResult` (an uncaught exception
  is `PyResult.exn name`); code whose exceptions are all caught is a total
  function.
* `asyncio` cooperative concurrency: sections guarded by an
  `asyncio.Lock` are serialized, so N concurrent callers of a
  lock-protected path are modelled as N sequential executions of the
  call on the evolving state.
-/

namespace InfoHub

/-- JSON values, the shape of payloads and cache files. -/
inductive Json where
  | null : Json
  | bool (b : Bool) : Json
  | num (q : ℚ) : Json
  | str (s : String) : Json
  | arr (xs : List Json) : Json
  | obj (kvs : List (String × Json)) : Json

namespace Json

/-- `isinstance(data, dict)` check. -/
def isObj : Json → Bool
  | .obj _ => true
  | _ => false

/-- Read a JSON value as a number, defaulting to 0 (the loaded cache
entries written by the system always hold numbers here). -/
def asRat : Json → ℚ
  | .num q => q
  | _ => 0

/-- Read a JSON value as a boolean, defaulting to `false`. -/
def asBool : Json → Bool
  | .bool b => b
  | _ => false

/-- Read a JSON value as a natural number counter, defaulting to 0. -/
def asNat : Json → ℕ
  | .num q => q.num.toNat
  | _ => 0

end Json

/-- Python dict update `d[k] = v`: replace in place if the key exists,
append otherwise (CPython insertion-order semantics). -/
def aset (k : String) (v : α) : List (String × α) → List (String × α)
  | [] => [(k, v)]
  | (k', v') :: rest => if k' = k then (k, v) :: rest else (k', v') :: aset k v rest

/-- Result of running a piece of Python code that may raise:
`ok a` is a normal return, `exn name` an uncaught exception. -/
inductive PyResult (α : Type) where
  | ok (a : α) : PyResult α
  | exn (name : String) : PyResult α
deriving DecidableEq, Repr

namespace CacheManager

/-- The `"fetched_at"` value found in a cache item, as seen by
`CacheManager._is_cache_valid` (`cache_manager.py` lines 24-34).
ISO-8601 parsing by `datetime.fromisoformat` is abstracted by its
outcome: `strParsed t` is a string parsing to UTC timestamp `t`
(seconds), `strBad` a string it rejects with `ValueError`, and
`numTs t` a non-string value such as the numeric timestamps used by the
other cache files (no `.replace` attribute). -/
inductive PyTimeVal where
  | strParsed (t : ℤ) : PyTimeVal
  | strBad : PyTimeVal
  | numTs (t : ℤ) : PyTimeVal
deriving DecidableEq, Repr

/-- A cache item as inspected by `_is_cache_valid`: a falsy (empty)
dict, a non-empty dict without a `"fetched_at"` key, or a dict whose
`"fetched_at"` is `v`. -/
inductive CMItem where
  | empty : CMItem
  | noFetchedAt : CMItem
  | withFetchedAt (v : PyTimeVal) : CMItem
deriving DecidableEq, Repr

/-- `CacheManager._is_cache_valid` (`cache_manager.py` lines 24-34),
with the current time `now` and `CACHE_TTL_SECONDS` as parameters.
Source behaviour it embeds:
* falsy item or missing `"fetched_at"` → `False`;
* string `fetched_at`: `.replace("Z", "+00:00")`, `fromisoformat`,
  then `(now - fetched).total_seconds() < CACHE_TTL_SECONDS`;
  a `ValueError` from parsing is caught and yields `False`;
* non-string `fetched_at` (e.g. a number): `.replace` raises
  `AttributeError`, which is NOT in the `except (ValueError, KeyError,
  TypeError)` clause, so it propagates to the caller. -/
def is_cache_valid (now ttl : ℤ) : CMItem → PyResult Bool
  | .empty => .ok false
  | .noFetchedAt => .ok false
  | .withFetchedAt (.strParsed t) => .ok (decide (now - t < ttl))
  | .withFetchedAt .strBad => .ok false
  | .withFetchedAt (.numTs _) => .exn "AttributeError"

/-- The spec's validity formula, `isValid(entry, ttl) = (now - fetched_at < ttl)`,
stated from the spec's words for comparison with the source functions. -/
def specIsValid (now fetched ttl : ℤ) : Bool := decide (now - fetched < ttl)

end CacheManager

namespace MarketDigest

/-- A `CacheEntry` of `market_digest.py` / `news_digest.py`
(dataclass with fields `data`, `fetched_at`, `is_stale`, `api_calls`). -/
structure CacheEntry where
  data : Json
  fetched_at : ℚ
  is_stale : Bool
  api_calls : ℕ

/-- The `CACHE_TTL` table of `market_digest.py` (lines 28-32). -/
def CACHE_TTL : List (String × ℕ) :=
  [("trending", 5 * 60), ("global", 10 * 60), ("fng", 60 * 60)]

/-- `CACHE_TTL.get(key, 300)` as used by `_is_cache_valid`. -/
def ttlFor (key : String) : ℕ := (List.lookup key CACHE_TTL).getD 300

/-- `MarketDigest._is_cache_valid` (`market_digest.py` lines 146-155):
key absent → `False`; otherwise `age = time.time() - entry.fetched_at`
and the result is `age < ttl`. -/
def is_cache_valid (now : ℚ) (cache : List (String × CacheEntry)) (key : String) : Bool :=
  match List.lookup key cache with
  | none => false
  | some e => decide (now - e.fetched_at < (ttlFor key : ℚ))

/-- The spec's validity formula for the numeric-timestamp caches. -/
def specIsValid (now fetched ttl : ℚ) : Bool := decide (now - fetched < ttl)

end MarketDigest

namespace Retry

/-- What one attempt of the wrapped coroutine does, as seen by the
`with_retry` wrapper (`api_client.py` lines 106-137): it returns a
value, raises `aiohttp.ClientError`, or raises some other exception. -/
inductive AttemptR (α : Type) where
  | ok (v : α) : AttemptR α
  | clientError : AttemptR α
  | otherError : AttemptR α
deriving DecidableEq, Repr

/-- Outcome of the whole wrapped call. `raisedClient` re-raises the last
`aiohttp.ClientError` after exhausting all attempts, `raisedOther`
re-raises a non-`ClientError` exception immediately, `raisedUnknown` is
the `Exception("Unknown error")` raised when `max_retries = 0` (empty
loop, `last_exception is None`). -/
inductive RetryOutcome (α : Type) where
  | ok (v : α) : RetryOutcome α
  | raisedClient : RetryOutcome α
  | raisedOther : RetryOutcome α
  | raisedUnknown : RetryOutcome α
deriving DecidableEq, Repr

/-- The `for attempt in range(max_retries)` loop of `with_retry`,
on the list of remaining attempt behaviours. `i` is the current value
of `attempt`, `sawClient` whether `last_exception` is set. Returns
(outcome, total delay slept, number of attempts made). On a
`ClientError` the code sleeps `min(delay_base * 2 ** attempt,
delay_max)` only when `attempt < max_retries - 1`, i.e. only when
further attempts remain. -/
def runRetry (base cap : ℚ) : ℕ → List (AttemptR α) → Bool → RetryOutcome α × ℚ × ℕ
  | _, [], sawClient =>
      ((if sawClient then .raisedClient else .raisedUnknown), 0, 0)
  | i, a :: rest, _ =>
      match a with
      | .ok v => (.ok v, 0, 1)
      | .clientError =>
          let d : ℚ := if rest.isEmpty then 0 else min (base * 2 ^ i) cap
          let r := runRetry base cap (i + 1) rest true
          (r.1, d + r.2.1, r.2.2 + 1)
      | .otherError => (.raisedOther, 0, 1)

/-- `with_retry(max_retries, delay_base, delay_max)` applied to a
coroutine whose attempt number `i` behaves as `f i`
(`api_client.py` lines 106-137). -/
def withRetry (maxRetries : ℕ) (base cap : ℚ) (f : ℕ → AttemptR α) :
    RetryOutcome α × ℚ × ℕ :=
  runRetry base cap 0 ((List.range maxRetries).map f) false

/-- Outcome of one HTTP request made inside a provider fetch method. -/
inductive HttpOutcome where
  | ok (data : Json) : HttpOutcome
  | clientErr : HttpOutcome
  | otherExn : HttpOutcome

/-- Body of `APIClient.fetch_crypto_prices` (`api_client.py` lines
229-244): the whole request is inside `try`, `except aiohttp.ClientError`
returns `None`, `except Exception` returns `None` — so the body never
raises and every failure is mapped to `None`. -/
def fetchCryptoBody : HttpOutcome → Option Json
  | .ok d => some d
  | .clientErr => none
  | .otherExn => none

/-- `fetch_crypto_prices` as decorated: `@with_retry(max_retries=3)`
wrapping the body above (defaults `delay_base = 1`, `delay_max = 10`).
Because the body catches its own exceptions, every attempt returns
normally from the wrapper's point of view. -/
def fetchCryptoPrices (outcomes : ℕ → HttpOutcome) :
    RetryOutcome (Option Json) × ℚ × ℕ :=
  withRetry 3 1 10 (fun i => .ok (fetchCryptoBody (outcomes i)))

end Retry

namespace WeatherQuota

/-- `WEATHER_HOURLY_LIMIT` (`api_client.py` line 29). -/
def WEATHER_HOURLY_LIMIT : ℕ := 10

/-- Start of the wall-clock hour containing `now`:
`int(time.time() // 3600) * 3600`. -/
def hourStart (now : ℕ) : ℕ := now / 3600 * 3600

/-- `WeatherMetrics` (`api_client.py` lines 32-58). -/
structure WeatherMetrics where
  hourly_calls : ℕ
  last_hour_reset : ℕ
deriving DecidableEq, Repr

/-- `WeatherMetrics.can_make_request` at time `now`: lazily reset the
counter when the current hour bucket differs from `last_hour_reset`,
then refuse iff `hourly_calls >= WEATHER_HOURLY_LIMIT`. Returns the
answer and the (possibly reset) state. -/
def canMakeRequest (now : ℕ) (m : WeatherMetrics) : Bool × WeatherMetrics :=
  let m' := if m.last_hour_reset ≠ hourStart now then
              { hourly_calls := 0, last_hour_reset := hourStart now }
            else m
  (decide (m'.hourly_calls < WEATHER_HOURLY_LIMIT), m')

/-- `WeatherMetrics.increment`. -/
def increment (m : WeatherMetrics) : WeatherMetrics :=
  { m with hourly_calls := m.hourly_calls + 1 }

/-- The check-then-record discipline of `fetch_weather` (`api_client.py`
lines 165-196): `can_make_request` first, `increment` only when it
allowed the request. Returns the new state and whether the request
was made. -/
def guardedRequest (now : ℕ) (m : WeatherMetrics) : WeatherMetrics × Bool :=
  let (okd, m') := canMakeRequest now m
  if okd then (increment m', true) else (m', false)

/-- A trace of guarded requests at the given times. -/
def runRequests : List ℕ → WeatherMetrics → WeatherMetrics
  | [], m => m
  | t :: ts, m => runRequests ts (guardedRequest t m).1

end WeatherQuota

namespace NewsQuota

/-- `HOURLY_LIMIT` and `DAILY_LIMIT` (`news_digest.py` lines 27-28). -/
def HOURLY_LIMIT : ℕ := 20

def DAILY_LIMIT : ℕ := 500

/-- Start of the wall-clock hour containing `now`. -/
def hourStart (now : ℕ) : ℕ := now / 3600 * 3600

/-- The calendar day of `now`, modelling the
`datetime.now().strftime("%Y-%m-%d")` date string as a day index. -/
def dayOf (now : ℕ) : ℕ := now / 86400

/-- `APIMetrics` of `news_digest.py` (lines 75-130). `last_reset_date`
is the day index of the last daily reset (the date string). -/
structure APIMetrics where
  total_calls : ℕ
  daily_calls : ℕ
  last_reset_date : ℕ
  hourly_calls : ℕ
  last_hour_reset : ℕ
deriving DecidableEq, Repr

/-- `reset_if_new_hour` (`news_digest.py` lines 94-100). -/
def resetIfNewHour (now : ℕ) (m : APIMetrics) : APIMetrics :=
  if m.last_hour_reset ≠ hourStart now then
    { m with hourly_calls := 0, last_hour_reset := hourStart now }
  else m

/-- `reset_if_new_day` (`news_digest.py` lines 86-92). -/
def resetIfNewDay (now : ℕ) (m : APIMetrics) : APIMetrics :=
  if m.last_reset_date ≠ dayOf now then
    { m with daily_calls := 0, last_reset_date := dayOf now }
  else m

/-- `APIMetrics.can_make_request` (`news_digest.py` lines 102-115):
lazy hourly and daily rollover, then refuse if either counter has
reached its limit. -/
def canMakeRequest (now : ℕ) (m : APIMetrics) : Bool × APIMetrics :=
  let m' := resetIfNewDay now (resetIfNewHour now m)
  if m'.hourly_calls ≥ HOURLY_LIMIT then (false, m')
  else if m'.daily_calls ≥ DAILY_LIMIT then (false, m')
  else (true, m')

/-- `APIMetrics.increment` (`news_digest.py` lines 117-121). -/
def increment (m : APIMetrics) : APIMetrics :=
  { m with hourly_calls := m.hourly_calls + 1,
           daily_calls := m.daily_calls + 1,
           total_calls := m.total_calls + 1 }

/-- The check-then-record discipline of `_fetch_newsdata`
(`news_digest.py` lines 258-291). -/
def guardedRequest (now : ℕ) (m : APIMetrics) : APIMetrics × Bool :=
  let (okd, m') := canMakeRequest now m
  if okd then (increment m', true) else (m', false)

/-- A trace of guarded requests at the given times. -/
def runRequests : List ℕ → APIMetrics → APIMetrics
  | [], m => m
  | t :: ts, m => runRequests ts (guardedRequest t m).1

end NewsQuota

/-- State of a cache file on disk, as seen by a loader: absent, an I/O
error on open/read, content `json.load` rejects, or content parsing to
the JSON value `j`. The byte layer of `json.dump`/`json.load` is
abstracted: a successfully written file holds the dumped AST. -/
inductive FileState where
  | missing : FileState
  | unreadable : FileState
  | corrupt : FileState
  | parsed (j : Json) : FileState

namespace CacheManager

/-- The placeholder store returned by `_load_cache_sync` on any failure:
the literal `{"global": {}}`. -/
def defaultStore : Json := .obj [("global", .obj [])]

/-- `CacheManager._save_cache_sync` (`cache_manager.py` lines 51-58):
dump the full cache dict to a temp file and atomically replace; the
resulting file content is the dumped AST. -/
def save_cache_sync (fullCacheData : Json) : FileState := .parsed fullCacheData

/-- `CacheManager._load_cache_sync` (`cache_manager.py` lines 36-46):
missing file → `{"global": {}}`; any exception from open/`json.load`
is caught (`except Exception`) → `{"global": {}}`; parsed non-dict data
→ `{"global": {}}`; otherwise the parsed dict. Total: never raises. -/
def load_cache_sync : FileState → Json
  | .missing => defaultStore
  | .unreadable => defaultStore
  | .corrupt => defaultStore
  | .parsed j => if j.isObj then j else defaultStore

end CacheManager

namespace MarketDigest

/-- One entry as serialized by `_save_cache_to_file`
(`market_digest.py` lines 126-144). -/
def saveEntry (e : CacheEntry) : Json :=
  .obj [("data", e.data), ("fetched_at", .num e.fetched_at),
        ("is_stale", .bool e.is_stale), ("api_calls", .num e.api_calls)]

/-- `MarketDigest._save_cache_to_file`: dump
`{key: {data, fetched_at, is_stale, api_calls}}` and atomically
replace the cache file. -/
def save_cache_to_file (cache : List (String × CacheEntry)) : FileState :=
  .parsed (.obj (cache.map fun kv => (kv.1, saveEntry kv.2)))

/-- One entry as deserialized by `_load_cache_from_file`
(`market_digest.py` lines 112-119): only dicts containing a `"data"`
key are accepted; the other fields fall back to `entry.get` defaults. -/
def loadEntry : Json → Option CacheEntry
  | .obj kvs =>
      match List.lookup "data" kvs with
      | none => none
      | some d =>
          some { data := d,
                 fetched_at := ((List.lookup "fetched_at" kvs).map Json.asRat).getD 0,
                 is_stale := ((List.lookup "is_stale" kvs).map Json.asBool).getD false,
                 api_calls := ((List.lookup "api_calls" kvs).map Json.asNat).getD 0 }
  | _ => none

/-- The entry-dict traversal shared by the loaders: keep every item
that is a dict with a `"data"` key. -/
def loadEntries (kvs : List (String × Json)) : List (String × CacheEntry) :=
  kvs.filterMap fun kv => (loadEntry kv.2).map fun e => (kv.1, e)

/-- `MarketDigest._load_cache_from_file` (`market_digest.py` lines
102-124), run on an initially empty in-memory cache: missing file →
empty; any exception (I/O, `json.load`, `.items()` on a non-dict) is
caught → empty; otherwise the accepted entries. Total: never raises. -/
def load_cache_from_file : FileState → List (String × CacheEntry)
  | .missing => []
  | .unreadable => []
  | .corrupt => []
  | .parsed (.obj kvs) => loadEntries kvs
  | .parsed _ => []

end MarketDigest

namespace NewsQuota

/-- `NewsDigest._load_cache_from_file` (`news_digest.py` lines
172-201), cache part, run on an initially empty in-memory cache: the
entries live under the top-level `"cache"` key (`data.get("cache",
{})`); a missing file or any caught exception leaves the cache empty;
a non-dict `"cache"` value makes `.items()` raise, caught → empty. -/
def load_cache_from_file : FileState → List (String × MarketDigest.CacheEntry)
  | .missing => []
  | .unreadable => []
  | .corrupt => []
  | .parsed (.obj kvs) =>
      match List.lookup "cache" kvs with
      | some (.obj ckvs) => MarketDigest.loadEntries ckvs
      | some _ => []
      | none => []
  | .parsed _ => []

end NewsQuota

namespace CacheManager

/-- The `"global"` cache entry as written by `_refresh_cache`
(`cache_manager.py` lines 124-128): the dict returned by
`fetch_all_data` — fields `crypto`, `fiat`, `news`, each possibly
`None` (`api_client.py` lines 332-362) — with `fetched_at` overwritten
by `now_iso`. `fetched_at` is the UTC timestamp the ISO string encodes. -/
structure GEntry where
  crypto : Option Json
  fiat : Option Json
  news : Option Json
  fetched_at : ℤ

/-- A weather entry as written by `_refresh_cache` (line 119):
`{"data": weather, "fetched_at": now_iso}`, where `weather` is the
return of `fetch_weather` and may be `None`. -/
structure WEntry where
  data : Option Json
  fetched_at : ℤ

/-- The slice of the cache store relevant to one `get_data(lat, lon)`
call: the `"global"` dict and the `weather_lat_lon` dict for the call's
coordinate key. `none` stands for an absent key or the empty dict
`{}` (both falsy and invalid). -/
structure Store where
  globalE : Option GEntry
  weatherE : Option WEntry

/-- `_is_cache_valid` applied to the (possibly absent) global dict:
absent/empty → `False`; otherwise its `fetched_at` ISO string parses to
the stored timestamp, giving the strict TTL comparison. -/
def validG (now ttl : ℤ) : Option GEntry → Bool
  | none => false
  | some g => is_cache_valid now ttl (.withFetchedAt (.strParsed g.fetched_at)) = .ok true

/-- `_is_cache_valid` applied to the (possibly absent) weather dict. -/
def validW (now ttl : ℤ) : Option WEntry → Bool
  | none => false
  | some w => is_cache_valid now ttl (.withFetchedAt (.strParsed w.fetched_at)) = .ok true

/-- What one call of each fetcher does during a refresh. `Except Unit`
is the `try/except` boundary in `_refresh_cache`: `.error` means the
awaited call raised (the `except` branch leaves the cache untouched),
`.ok` a normal return. In the shipped code `fetch_weather` and
`fetch_all_data` catch all their own exceptions and return `None` /
a dict of `None`s, so a failing provider surfaces as `.ok none` or
`.ok (none, none, none)`, not as `.error`. -/
structure FetchOutcome where
  weather : Except Unit (Option Json)
  globalR : Except Unit (Option Json × Option Json × Option Json)

/-- The value assembled for the caller (`cache_manager.py` lines
134-137): a copy of the current global dict with
`result["weather"] = full_cache.get(coord_key, {}).get("data")`. -/
structure GDResult where
  globalPart : Option GEntry
  weather : Option Json

/-- `result["weather"]` extraction: `.get("data")` on the weather
dict, `None` when the dict is absent or its payload was `None`. -/
def weatherData : Option WEntry → Option Json
  | none => none
  | some w => w.data

/-- Assemble the caller's result from a store snapshot. -/
def mkResult (st : Store) : GDResult :=
  { globalPart := st.globalE, weather := weatherData st.weatherE }

/-- `CacheManager._refresh_cache` (`cache_manager.py` lines 110-137):
conditionally refetch the weather and global entries, writing
`{"data": w, "fetched_at": now_iso}` / the fetched global dict stamped
`now_iso` on normal fetcher return, leaving the old entry on a raised
exception (caught and logged); then save and assemble the result.
Also returns how many weather and global provider fetches were made. -/
def refreshCache (now : ℤ) (updGlobal updWeather : Bool) (fo : FetchOutcome)
    (st : Store) : Store × GDResult × ℕ × ℕ :=
  let st1 := if updWeather then
      match fo.weather with
      | .error _ => st
      | .ok w => { st with weatherE := some { data := w, fetched_at := now } }
    else st
  let st2 := if updGlobal then
      match fo.globalR with
      | .error _ => st1
      | .ok (c, f, n) =>
          { st1 with globalE := some { crypto := c, fiat := f, news := n, fetched_at := now } }
    else st1
  (st2, mkResult st2,
    (if updWeather then 1 else 0), (if updGlobal then 1 else 0))

/-- `CacheManager.get_data` (`cache_manager.py` lines 67-108) for one
caller, with the cooperative-concurrency lock serializing callers:
* both entries valid → return the cached result, no fetch;
* something expired and `ENABLE_BACKGROUND_REFRESH` with any existing
  data → return the old data immediately; the spawned background
  `_refresh_cache` updates the store (its completed effect is part of
  the returned store);
* otherwise block on `_refresh_lock`, re-check validity
  (double-checked locking), and refresh what is invalid. -/
def getData (bgEnabled : Bool) (now ttl : ℤ) (fo : FetchOutcome)
    (st : Store) : Store × GDResult × ℕ × ℕ :=
  let gv := validG now ttl st.globalE
  let wv := validW now ttl st.weatherE
  if gv && wv then (st, mkResult st, 0, 0)
  else if bgEnabled && (st.globalE.isSome || st.weatherE.isSome) then
    let r := refreshCache now (!gv) (!wv) fo st
    (r.1, mkResult st, r.2.2)
  else
    if validG now ttl st.globalE && validW now ttl st.weatherE then
      (st, mkResult st, 0, 0)
    else
      refreshCache now (!(validG now ttl st.globalE)) (!(validW now ttl st.weatherE)) fo st

/-- `n` consecutive `get_data` callers serialized by the lock, all at
time `now` with the same fetch behaviour; returns the final store, the
list of results, and the total weather / global fetch counts. -/
def runGetData (bgEnabled : Bool) (now ttl : ℤ) (fo : FetchOutcome) :
    ℕ → Store → Store × List GDResult × ℕ × ℕ
  | 0, st => (st, [], 0, 0)
  | n + 1, st =>
      let r1 := getData bgEnabled now ttl fo st
      let rest := runGetData bgEnabled now ttl fo n r1.1
      (rest.1, r1.2.1 :: rest.2.1, r1.2.2.1 + rest.2.2.1, r1.2.2.2 + rest.2.2.2)

end CacheManager

namespace MarketDigest

/-- In-memory state of `MarketDigest` relevant to `get_trending`:
the cache dict plus a count of real `_fetch_coingecko` invocations
(the quantity the single-flight property bounds). -/
structure MDState where
  cache : List (String × CacheEntry)
  fetches : ℕ

/-- `MarketDigest._set_cached` (`market_digest.py` lines 161-170):
build a fresh entry stamped `time.time()`, carrying
`api_calls = previous + 1`, store it, and persist. -/
def setCached (now : ℚ) (cache : List (String × CacheEntry)) (key : String)
    (d : Json) (isStale : Bool) : List (String × CacheEntry) :=
  let prev := match List.lookup key cache with
    | some e => e.api_calls
    | none => 0
  aset key { data := d, fetched_at := now, is_stale := isStale, api_calls := prev + 1 } cache

/-- `MarketDigest.get_trending` (`market_digest.py` lines 234-266) for
one caller; `fetch` is what `_fetch_coingecko("/search/trending")`
returns when actually called (`none` covers rate-limit skip, HTTP 429,
`ClientError` and unexpected exceptions, all caught inside it):
* cache valid → return the cached payload, no fetch;
* else under `self._lock`: double-check validity, fetch, on success
  `_set_cached(..., is_stale=False)` and return the data;
* on failed fetch: if a previous entry exists, set its `is_stale = True`
  in place and return its payload, else return `None`. -/
def getTrending (now : ℚ) (fetch : Option Json) (st : MDState) :
    MDState × Option Json :=
  let key := "trending"
  if is_cache_valid now st.cache key then
    (st, (List.lookup key st.cache).map fun e => e.data)
  else if is_cache_valid now st.cache key then
    (st, (List.lookup key st.cache).map fun e => e.data)
  else
    let st1 : MDState := { st with fetches := st.fetches + 1 }
    match fetch with
    | some d => ({ st1 with cache := setCached now st1.cache key d false }, some d)
    | none =>
        match List.lookup key st1.cache with
        | some e =>
            ({ st1 with cache := aset key { e with is_stale := true } st1.cache },
              some e.data)
        | none => (st1, none)

/-- `n` consecutive lock-serialized `get_trending` callers at time
`now` with the same fetch behaviour; returns the final state and the
list of the callers' results. -/
def runTrending (now : ℚ) (fetch : Option Json) :
    ℕ → MDState → MDState × List (Option Json)
  | 0, st => (st, [])
  | n + 1, st =>
      let r1 := getTrending now fetch st
      let rest := runTrending now fetch n r1.1
      (rest.1, r1.2 :: rest.2)

end MarketDigest

/-! ## Theorems -/

/-- C1: TTL validity check — for every cache entry and TTL, the validity
check returns true iff `now - entry.fetched_at < ttl` (strict), so an
entry aged `ttl - 1` seconds is valid and one aged `ttl + 1` seconds is
invalid; this holds for `CacheManager._is_cache_valid` (parsed ISO-8601
`fetched_at` against `CACHE_TTL_SECONDS`) and for
`MarketDigest._is_cache_valid` (numeric `fetched_at` against the
per-key `CACHE_TTL` table, default 300). -/
theorem ttl_validity :
    (∀ now ttl t : ℤ,
      CacheManager.is_cache_valid now ttl (.withFetchedAt (.strParsed t)) =
        .ok (CacheManager.specIsValid now t ttl))
    ∧ (∀ ttl t : ℤ,
      CacheManager.is_cache_valid (t + (ttl - 1)) ttl (.withFetchedAt (.strParsed t)) =
        .ok true)
    ∧ (∀ ttl t : ℤ,
      CacheManager.is_cache_valid (t + (ttl + 1)) ttl (.withFetchedAt (.strParsed t)) =
        .ok false)
    ∧ (∀ (now : ℚ) (key : String) (e : MarketDigest.CacheEntry),
      MarketDigest.is_cache_valid now [(key, e)] key =
        MarketDigest.specIsValid now e.fetched_at (MarketDigest.ttlFor key))
    ∧ (∀ (key : String) (e : MarketDigest.CacheEntry),
      MarketDigest.is_cache_valid (e.fetched_at + ((MarketDigest.ttlFor key : ℚ) - 1))
        [(key, e)] key = true)
    ∧ (∀ (key : String) (e : MarketDigest.CacheEntry),
      MarketDigest.is_cache_valid (e.fetched_at + ((MarketDigest.ttlFor key : ℚ) + 1))
        [(key, e)] key = false) := by
  refine ⟨fun _ _ _ => rfl, fun ttl t => ?_, fun ttl t => ?_, fun now key e => ?_,
    fun key e => ?_, fun key e => ?_⟩
  · simp [CacheManager.is_cache_valid]
  · simp [CacheManager.is_cache_valid]
  · simp [MarketDigest.is_cache_valid, MarketDigest.specIsValid, List.lookup]
  · simp [MarketDigest.is_cache_valid, List.lookup]
  · simp [MarketDigest.is_cache_valid, List.lookup]

/-- C10 counterexample: on an item whose `"fetched_at"` is a numeric
timestamp, `CacheManager._is_cache_valid` does not return a boolean:
the `.replace` call raises `AttributeError`, which the
`except (ValueError, KeyError, TypeError)` clause does not catch. -/
theorem is_cache_valid_raises_on_numeric :
    CacheManager.is_cache_valid 100 60 (.withFetchedAt (.numTs 50)) =
      .exn "AttributeError" := rfl

/-- C10 (amended): `CacheManager._is_cache_valid` returns false (rather
than raising) when the item is empty, lacks a `"fetched_at"` field, or
has a string `"fetched_at"` that is not parseable ISO-8601, and returns
the strict TTL comparison on a parseable string; but when `"fetched_at"`
is a non-string value (e.g. a numeric timestamp as used by the other
cache files), the `.replace` call raises an uncaught `AttributeError`
instead of returning false. -/
theorem is_cache_valid_totality :
    (∀ now ttl : ℤ, CacheManager.is_cache_valid now ttl .empty = .ok false)
    ∧ (∀ now ttl : ℤ, CacheManager.is_cache_valid now ttl .noFetchedAt = .ok false)
    ∧ (∀ now ttl : ℤ,
      CacheManager.is_cache_valid now ttl (.withFetchedAt .strBad) = .ok false)
    ∧ (∀ now ttl t : ℤ,
      CacheManager.is_cache_valid now ttl (.withFetchedAt (.strParsed t)) =
        .ok (CacheManager.specIsValid now t ttl))
    ∧ (∀ now ttl t : ℤ,
      CacheManager.is_cache_valid now ttl (.withFetchedAt (.numTs t)) =
        .exn "AttributeError") :=
  ⟨fun _ _ => rfl, fun _ _ => rfl, fun _ _ => rfl, fun _ _ _ => rfl, fun _ _ _ => rfl⟩

namespace Retry

/-- One loop step on a transient failure, for rewriting. -/
theorem runRetry_clientStep (base cap : ℚ) (i : ℕ) (rest : List (AttemptR Json))
    (saw : Bool) :
    runRetry base cap i (.clientError :: rest) saw =
      ((runRetry base cap (i + 1) rest true).1,
        (if rest.isEmpty then 0 else min (base * 2 ^ i) cap)
          + (runRetry base cap (i + 1) rest true).2.1,
        (runRetry base cap (i + 1) rest true).2.2 + 1) := rfl

/-- Running the retry loop on `k` transient failures followed by a
success: every failure sleeps the capped exponential delay for its
attempt index, the success returns its payload. -/
theorem runRetry_fail_then_ok (base cap : ℚ) (v : Json) :
    ∀ (k j : ℕ) (saw : Bool),
      runRetry base cap j (List.replicate k .clientError ++ [.ok v]) saw =
        (.ok v, ∑ i ∈ Finset.range k, min (base * 2 ^ (j + i)) cap, k + 1) := by
  intro k
  induction k with
  | zero => intro j saw; simp [runRetry]
  | succ k ih =>
      intro j saw
      rw [List.replicate_succ, List.cons_append, runRetry_clientStep, ih (j + 1) true]
      have hne : (List.replicate k (AttemptR.clientError (α := Json)) ++
          [AttemptR.ok v]).isEmpty = false := by
        cases k <;> simp [List.replicate_succ]
      rw [hne]
      simp only [Bool.false_eq_true, if_false, Prod.mk.injEq]
      refine ⟨trivial, ?_, trivial⟩
      have hsum : (∑ i ∈ Finset.range k, min (base * 2 ^ (j + 1 + i)) cap)
          = ∑ i ∈ Finset.range k, min (base * 2 ^ (j + (i + 1))) cap :=
        Finset.sum_congr rfl fun i _ => by
          rw [show j + 1 + i = j + (i + 1) from by omega]
      rw [hsum, Finset.sum_range_succ', add_zero]
      ring

/-- Running the retry loop on `k + 1` transient failures and nothing
else: all attempts are consumed, the delays before the last attempt are
slept, and the last `ClientError` is re-raised. -/
theorem runRetry_all_fail (base cap : ℚ) :
    ∀ (k j : ℕ) (saw : Bool),
      runRetry (α := Json) base cap j (List.replicate (k + 1) .clientError) saw =
        (.raisedClient, ∑ i ∈ Finset.range k, min (base * 2 ^ (j + i)) cap, k + 1) := by
  intro k
  induction k with
  | zero => intro j saw; simp [runRetry]
  | succ k ih =>
      intro j saw
      rw [List.replicate_succ, runRetry_clientStep, ih (j + 1) true]
      have hne : (List.replicate (k + 1) (AttemptR.clientError (α := Json))).isEmpty
          = false := by simp [List.replicate_succ]
      rw [hne]
      simp only [Bool.false_eq_true, if_false, Prod.mk.injEq]
      refine ⟨trivial, ?_, trivial⟩
      have hsum : (∑ i ∈ Finset.range k, min (base * 2 ^ (j + 1 + i)) cap)
          = ∑ i ∈ Finset.range k, min (base * 2 ^ (j + (i + 1))) cap :=
        Finset.sum_congr rfl fun i _ => by
          rw [show j + 1 + i = j + (i + 1) from by omega]
      rw [hsum, Finset.sum_range_succ', add_zero]
      ring

/-- Running the retry loop on `k` transient failures followed by a
non-`ClientError` exception: the loop stops at that attempt and
re-raises it at once, regardless of any remaining attempts. -/
theorem runRetry_fail_then_other (base cap : ℚ) :
    ∀ (k j : ℕ) (rest : List (AttemptR Json)) (saw : Bool),
      runRetry base cap j (List.replicate k .clientError ++ .otherError :: rest) saw =
        (.raisedOther, ∑ i ∈ Finset.range k, min (base * 2 ^ (j + i)) cap, k + 1) := by
  intro k
  induction k with
  | zero => intro j rest saw; simp [runRetry]
  | succ k ih =>
      intro j rest saw
      rw [List.replicate_succ, List.cons_append, runRetry_clientStep, ih (j + 1) rest true]
      have hne : (List.replicate k (AttemptR.clientError (α := Json)) ++
          AttemptR.otherError :: rest).isEmpty = false := by
        cases k <;> simp [List.replicate_succ]
      rw [hne]
      simp only [Bool.false_eq_true, if_false, Prod.mk.injEq]
      refine ⟨trivial, ?_, trivial⟩
      have hsum : (∑ i ∈ Finset.range k, min (base * 2 ^ (j + 1 + i)) cap)
          = ∑ i ∈ Finset.range k, min (base * 2 ^ (j + (i + 1))) cap :=
        Finset.sum_congr rfl fun i _ => by
          rw [show j + 1 + i = j + (i + 1) from by omega]
      rw [hsum, Finset.sum_range_succ', add_zero]
      ring

/-- A prefix of transient failures maps to a replicated attempt list. -/
theorem range_map_replicate (f : ℕ → AttemptR Json) (k : ℕ)
    (hfail : ∀ i < k, f i = .clientError) :
    (List.range k).map f = List.replicate k .clientError := by
  rw [List.eq_replicate_iff]
  refine ⟨by simp, fun b hb => ?_⟩
  obtain ⟨i, hi, rfl⟩ := List.mem_map.1 hb
  exact hfail i (List.mem_range.1 hi)

end Retry

/-- C5: retry count and backoff arithmetic — a call wrapped with
`with_retry(max_retries = N, delay_base = base, delay_max = cap)` that
raises a transient (`aiohttp.ClientError`) error on exactly the first
`N - 1` attempts and succeeds on attempt `N` returns the successful
payload (after `N` attempts), and the total backoff delay slept equals
`∑ i in 0..N-2, min(base * 2^i, cap)`. -/
theorem retry_backoff (N : ℕ) (base cap : ℚ) (v : Json) (f : ℕ → Retry.AttemptR Json)
    (hN : 1 ≤ N) (hfail : ∀ i < N - 1, f i = .clientError) (hsucc : f (N - 1) = .ok v) :
    Retry.withRetry N base cap f =
      (.ok v, ∑ i ∈ Finset.range (N - 1), min (base * 2 ^ i) cap, N) := by
  unfold Retry.withRetry
  obtain ⟨M, rfl⟩ : ∃ M, N = M + 1 := ⟨N - 1, by omega⟩
  simp only [Nat.add_sub_cancel] at hfail hsucc ⊢
  rw [List.range_succ, List.map_append, Retry.range_map_replicate f M hfail]
  simp only [List.map_cons, List.map_nil, hsucc]
  rw [Retry.runRetry_fail_then_ok]
  simp

/-- C5 witness: `with_retry(max_retries = 3, delay_base = 1,
delay_max = 10)` around a call failing transiently on attempts 1 and 2
and succeeding on attempt 3 returns the payload after a total delay of
`min(1, 10) + min(2, 10) = 3` seconds. -/
theorem retry_backoff_witness :
    Retry.withRetry 3 1 10
        (fun i => if i < 2 then .clientError else .ok (Json.num 5)) =
      (.ok (Json.num 5), 3, 3) := by
  rw [retry_backoff 3 1 10 (Json.num 5) _ (by norm_num)
    (fun i hi => by simp only [if_pos hi]) (by norm_num)]
  norm_num [Finset.sum_range_succ]

/-- C6 counterexample: `fetch_crypto_prices`, though decorated with
`@with_retry(max_retries = 3)`, catches `aiohttp.ClientError` inside
its own body and returns `None`; so when every attempt fails
transiently the composed call makes exactly one attempt, sleeps no
backoff, and returns `None` — the transient error is neither retried
nor propagated to the caller, contradicting the claim for the wrapped
provider methods. -/
theorem fetch_crypto_swallows_transient_errors :
    Retry.fetchCryptoPrices (fun _ => .clientErr) = (.ok none, 0, 1) := rfl

/-- C6 (amended): the `with_retry` wrapper itself behaves as specified —
it retries only on `aiohttp.ClientError` (sleeping the capped
exponential backoff between attempts), re-raises the last error after
exhausting all `N` attempts rather than swallowing it, and ends the
call immediately on the first non-`ClientError` exception with no
further attempts; however the provider fetch bodies it wraps
(e.g. `fetch_crypto_prices`) catch transport errors internally and
return `None`, so the composed call always returns after a single
attempt with the body's `None`-on-failure result and no error ever
reaches `with_retry` or the caller. -/
theorem retry_classification (N k : ℕ) (base cap : ℚ)
    (f g : ℕ → Retry.AttemptR Json)
    (hN : 1 ≤ N) (hf : ∀ i < N, f i = .clientError)
    (hkN : k < N) (hg : ∀ i < k, g i = .clientError) (hgk : g k = .otherError) :
    Retry.withRetry N base cap f =
      (.raisedClient, ∑ i ∈ Finset.range (N - 1), min (base * 2 ^ i) cap, N)
    ∧ Retry.withRetry N base cap g =
      (.raisedOther, ∑ i ∈ Finset.range k, min (base * 2 ^ i) cap, k + 1)
    ∧ ∀ outcomes, Retry.fetchCryptoPrices outcomes =
      (.ok (Retry.fetchCryptoBody (outcomes 0)), 0, 1) := by
  refine ⟨?_, ?_, fun outcomes => rfl⟩
  · unfold Retry.withRetry
    obtain ⟨M, rfl⟩ : ∃ M, N = M + 1 := ⟨N - 1, by omega⟩
    rw [Retry.range_map_replicate f (M + 1) hf, Retry.runRetry_all_fail]
    simp
  · unfold Retry.withRetry
    obtain ⟨R, hR⟩ : ∃ R, N = (k + 1) + R := ⟨N - (k + 1), by omega⟩
    subst hR
    rw [List.range_add, List.map_append, List.range_succ, List.map_append,
      Retry.range_map_replicate g k hg]
    simp only [List.map_cons, List.map_nil, hgk, List.append_assoc, List.singleton_append]
    rw [Retry.runRetry_fail_then_other]
    simp

/-- C6 witness: with `N = 3`, `base = 1`, `cap = 10`: three transient
failures re-raise the last error after delays `1 + 2 = 3`; a
non-transient error on the second attempt aborts after two attempts
with only the first delay slept; and `fetch_crypto_prices` under an
always-failing transport returns `None` after one attempt. -/
theorem retry_classification_witness :
    Retry.withRetry 3 1 10 (fun _ => (.clientError : Retry.AttemptR Json)) =
      (.raisedClient, 3, 3)
    ∧ Retry.withRetry 3 1 10
        (fun i => if i < 1 then (.clientError : Retry.AttemptR Json) else .otherError) =
      (.raisedOther, 1, 2)
    ∧ ∀ outcomes, Retry.fetchCryptoPrices outcomes =
      (.ok (Retry.fetchCryptoBody (outcomes 0)), 0, 1) := by
  have h := retry_classification 3 1 1 10
    (fun _ => (.clientError : Retry.AttemptR Json))
    (fun i => if i < 1 then (.clientError : Retry.AttemptR Json) else .otherError)
    (by norm_num) (fun i _ => rfl) (by norm_num)
    (fun i hi => by simp only [if_pos hi]) (by norm_num)
  refine ⟨?_, ?_, h.2.2⟩
  · rw [h.1]; norm_num [Finset.sum_range_succ]
  · rw [h.2.1]; norm_num [Finset.sum_range_succ]

namespace WeatherQuota

/-- A guarded request never pushes the hourly counter past the limit. -/
theorem guarded_le (t : ℕ) (m : WeatherMetrics)
    (h : m.hourly_calls ≤ WEATHER_HOURLY_LIMIT) :
    ((guardedRequest t m).1).hourly_calls ≤ WEATHER_HOURLY_LIMIT := by
  unfold guardedRequest canMakeRequest increment WEATHER_HOURLY_LIMIT at *
  split_ifs <;> simp_all <;> split_ifs <;> simp_all <;> omega

/-- A trace of guarded requests never pushes the hourly counter past
the limit. -/
theorem run_le (ts : List ℕ) : ∀ (m : WeatherMetrics),
    m.hourly_calls ≤ WEATHER_HOURLY_LIMIT →
    (runRequests ts m).hourly_calls ≤ WEATHER_HOURLY_LIMIT := by
  induction ts with
  | nil => intro m h; exact h
  | cons t ts ih => intro m h; exact ih _ (guarded_le t m h)

/-- `k` guarded requests at one fixed time, starting inside the window
with `c` recorded calls, leave `min (c + k) limit` recorded calls. -/
theorem run_replicate (now : ℕ) :
    ∀ (k c : ℕ), c ≤ WEATHER_HOURLY_LIMIT →
      runRequests (List.replicate k now) ⟨c, hourStart now⟩ =
        ⟨min (c + k) WEATHER_HOURLY_LIMIT, hourStart now⟩ := by
  intro k
  induction k with
  | zero =>
      intro c hc
      simp only [List.replicate, runRequests]
      congr 1
      unfold WEATHER_HOURLY_LIMIT at *
      omega
  | succ k ih =>
      intro c hc
      rw [List.replicate_succ]
      show runRequests _ (guardedRequest now ⟨c, hourStart now⟩).1 = _
      unfold guardedRequest canMakeRequest increment
      simp only [ne_eq, not_true_eq_false, if_false]
      by_cases hlt : c < WEATHER_HOURLY_LIMIT
      · rw [if_pos (by simpa using hlt)]
        show runRequests _ (⟨c + 1, hourStart now⟩ : WeatherMetrics) = _
        rw [ih (c + 1) (by unfold WEATHER_HOURLY_LIMIT at *; omega)]
        congr 1
        unfold WEATHER_HOURLY_LIMIT at *
        omega
      · rw [if_neg (by simpa using hlt)]
        show runRequests _ (⟨c, hourStart now⟩ : WeatherMetrics) = _
        rw [ih c hc]
        congr 1
        unfold WEATHER_HOURLY_LIMIT at *
        omega

/-- Once the counter has reached the limit, every further check inside
the same hour window is refused and changes nothing. -/
theorem can_blocked (now : ℕ) (m : WeatherMetrics)
    (hc : WEATHER_HOURLY_LIMIT ≤ m.hourly_calls)
    (hw : m.last_hour_reset = hourStart now) :
    canMakeRequest now m = (false, m) := by
  unfold canMakeRequest
  rw [if_neg (by simp [hw])]
  simp only [Prod.mk.injEq, decide_eq_false_iff_not, not_lt]
  exact ⟨hc, trivial⟩

/-- Once the wall clock passes the end of the recorded window, the
check lazily resets the counter to zero and allows the request. -/
theorem can_rollover (t0 now2 : ℕ) (m : WeatherMetrics)
    (h0 : m.last_hour_reset = hourStart t0)
    (h1 : m.last_hour_reset + 3600 ≤ now2) :
    canMakeRequest now2 m = (true, ⟨0, hourStart now2⟩) := by
  unfold canMakeRequest
  rw [if_pos (by unfold hourStart at *; omega)]
  simp [WEATHER_HOURLY_LIMIT]

end WeatherQuota

namespace NewsQuota

/-- A guarded request never pushes the hourly counter past the limit. -/
theorem guarded_le_hourly (t : ℕ) (m : APIMetrics)
    (h : m.hourly_calls ≤ HOURLY_LIMIT) :
    ((guardedRequest t m).1).hourly_calls ≤ HOURLY_LIMIT := by
  by_cases h1 : m.last_hour_reset = hourStart t <;>
    by_cases h2 : m.last_reset_date = dayOf t <;>
    simp [guardedRequest, canMakeRequest, resetIfNewHour, resetIfNewDay, increment,
      h1, h2, HOURLY_LIMIT, DAILY_LIMIT] <;>
    split_ifs <;>
    simp_all [HOURLY_LIMIT] <;> omega

/-- A guarded request never pushes the daily counter past the limit. -/
theorem guarded_le_daily (t : ℕ) (m : APIMetrics)
    (h : m.daily_calls ≤ DAILY_LIMIT) :
    ((guardedRequest t m).1).daily_calls ≤ DAILY_LIMIT := by
  by_cases h1 : m.last_hour_reset = hourStart t <;>
    by_cases h2 : m.last_reset_date = dayOf t <;>
    simp [guardedRequest, canMakeRequest, resetIfNewHour, resetIfNewDay, increment,
      h1, h2, HOURLY_LIMIT, DAILY_LIMIT] <;>
    split_ifs <;>
    simp_all [DAILY_LIMIT] <;> omega

/-- A trace of guarded requests keeps the hourly counter at or below
its limit. -/
theorem run_le_hourly (ts : List ℕ) : ∀ (m : APIMetrics),
    m.hourly_calls ≤ HOURLY_LIMIT →
    (runRequests ts m).hourly_calls ≤ HOURLY_LIMIT := by
  induction ts with
  | nil => intro m h; exact h
  | cons t ts ih => intro m h; exact ih _ (guarded_le_hourly t m h)

/-- A trace of guarded requests keeps the daily counter at or below
its limit. -/
theorem run_le_daily (ts : List ℕ) : ∀ (m : APIMetrics),
    m.daily_calls ≤ DAILY_LIMIT →
    (runRequests ts m).daily_calls ≤ DAILY_LIMIT := by
  induction ts with
  | nil => intro m h; exact h
  | cons t ts ih => intro m h; exact ih _ (guarded_le_daily t m h)

/-- An exhausted hourly counter refuses every request in its window. -/
theorem can_blocked_hourly (now : ℕ) (m : APIMetrics)
    (hc : HOURLY_LIMIT ≤ m.hourly_calls)
    (hw : m.last_hour_reset = hourStart now)
    (hd : m.last_reset_date = dayOf now) :
    canMakeRequest now m = (false, m) := by
  unfold HOURLY_LIMIT at hc
  simp [canMakeRequest, resetIfNewHour, resetIfNewDay, hw, hd, HOURLY_LIMIT, DAILY_LIMIT]
  omega

/-- An exhausted daily counter refuses every request in its day. -/
theorem can_blocked_daily (now : ℕ) (m : APIMetrics)
    (hc : DAILY_LIMIT ≤ m.daily_calls)
    (hw : m.last_hour_reset = hourStart now)
    (hd : m.last_reset_date = dayOf now) :
    canMakeRequest now m = (false, m) := by
  unfold DAILY_LIMIT at hc
  simp [canMakeRequest, resetIfNewHour, resetIfNewDay, hw, hd, HOURLY_LIMIT, DAILY_LIMIT]
  omega

/-- When both the hour and the day windows have rolled over, the check
lazily resets both counters to zero and allows the request. -/
theorem can_rollover_both (t0 d0 now2 : ℕ) (m : APIMetrics)
    (h0 : m.last_hour_reset = hourStart t0)
    (h1 : m.last_hour_reset + 3600 ≤ now2)
    (h2 : m.last_reset_date = dayOf d0)
    (h3 : dayOf d0 * 86400 + 86400 ≤ now2) :
    canMakeRequest now2 m =
      (true,
        { total_calls := m.total_calls, daily_calls := 0,
          last_reset_date := dayOf now2, hourly_calls := 0,
          last_hour_reset := hourStart now2 }) := by
  have hh : m.last_hour_reset ≠ hourStart now2 := by
    unfold hourStart at *; omega
  have hdd : m.last_reset_date ≠ dayOf now2 := by
    rw [h2]; unfold dayOf at *; omega
  simp [canMakeRequest, resetIfNewHour, resetIfNewDay, hh, hdd,
    HOURLY_LIMIT, DAILY_LIMIT]

/-- When only the hour window has rolled over and the daily budget is
not exhausted, the check resets the hourly counter and allows the
request. -/
theorem can_rollover_hour (t0 now2 : ℕ) (m : APIMetrics)
    (h0 : m.last_hour_reset = hourStart t0)
    (h1 : m.last_hour_reset + 3600 ≤ now2)
    (h2 : m.last_reset_date = dayOf now2)
    (h3 : m.daily_calls < DAILY_LIMIT) :
    canMakeRequest now2 m =
      (true,
        { total_calls := m.total_calls, daily_calls := m.daily_calls,
          last_reset_date := m.last_reset_date, hourly_calls := 0,
          last_hour_reset := hourStart now2 }) := by
  have hh : m.last_hour_reset ≠ hourStart now2 := by
    unfold hourStart at *; omega
  unfold DAILY_LIMIT at h3
  simp [canMakeRequest, resetIfNewHour, resetIfNewDay, hh, h2,
    HOURLY_LIMIT, DAILY_LIMIT]
  omega

end NewsQuota

/-- C7: quota window invariant and monotonicity — for the weather
tracker (`WeatherMetrics`, hourly limit 10) and the news tracker
(`APIMetrics`, hourly limit 20 / daily limit 500): under the
check-then-record discipline the window counters never exceed their
limits; after exactly `limit` recorded requests within one window every
further check in that window returns false; and once
`now ≥ window_start + window_size` the check returns true again, the
counter having been lazily reset to zero on that access. -/
theorem quota_window_invariant :
    (∀ (ts : List ℕ) (m : WeatherQuota.WeatherMetrics),
      m.hourly_calls ≤ WeatherQuota.WEATHER_HOURLY_LIMIT →
      (WeatherQuota.runRequests ts m).hourly_calls ≤ WeatherQuota.WEATHER_HOURLY_LIMIT)
    ∧ (∀ now : ℕ,
      WeatherQuota.runRequests
          (List.replicate WeatherQuota.WEATHER_HOURLY_LIMIT now)
          ⟨0, WeatherQuota.hourStart now⟩ =
        ⟨WeatherQuota.WEATHER_HOURLY_LIMIT, WeatherQuota.hourStart now⟩)
    ∧ (∀ (now : ℕ) (m : WeatherQuota.WeatherMetrics),
      WeatherQuota.WEATHER_HOURLY_LIMIT ≤ m.hourly_calls →
      m.last_hour_reset = WeatherQuota.hourStart now →
      WeatherQuota.canMakeRequest now m = (false, m))
    ∧ (∀ (t0 now2 : ℕ) (m : WeatherQuota.WeatherMetrics),
      m.last_hour_reset = WeatherQuota.hourStart t0 →
      m.last_hour_reset + 3600 ≤ now2 →
      WeatherQuota.canMakeRequest now2 m = (true, ⟨0, WeatherQuota.hourStart now2⟩))
    ∧ (∀ (ts : List ℕ) (m : NewsQuota.APIMetrics),
      m.hourly_calls ≤ NewsQuota.HOURLY_LIMIT →
      (NewsQuota.runRequests ts m).hourly_calls ≤ NewsQuota.HOURLY_LIMIT)
    ∧ (∀ (ts : List ℕ) (m : NewsQuota.APIMetrics),
      m.daily_calls ≤ NewsQuota.DAILY_LIMIT →
      (NewsQuota.runRequests ts m).daily_calls ≤ NewsQuota.DAILY_LIMIT)
    ∧ (∀ (now : ℕ) (m : NewsQuota.APIMetrics),
      NewsQuota.HOURLY_LIMIT ≤ m.hourly_calls →
      m.last_hour_reset = NewsQuota.hourStart now →
      m.last_reset_date = NewsQuota.dayOf now →
      NewsQuota.canMakeRequest now m = (false, m))
    ∧ (∀ (now : ℕ) (m : NewsQuota.APIMetrics),
      NewsQuota.DAILY_LIMIT ≤ m.daily_calls →
      m.last_hour_reset = NewsQuota.hourStart now →
      m.last_reset_date = NewsQuota.dayOf now →
      NewsQuota.canMakeRequest now m = (false, m))
    ∧ (∀ (t0 d0 now2 : ℕ) (m : NewsQuota.APIMetrics),
      m.last_hour_reset = NewsQuota.hourStart t0 →
      m.last_hour_reset + 3600 ≤ now2 →
      m.last_reset_date = NewsQuota.dayOf d0 →
      NewsQuota.dayOf d0 * 86400 + 86400 ≤ now2 →
      NewsQuota.canMakeRequest now2 m =
        (true,
          { total_calls := m.total_calls, daily_calls := 0,
            last_reset_date := NewsQuota.dayOf now2, hourly_calls := 0,
            last_hour_reset := NewsQuota.hourStart now2 }))
    ∧ (∀ (t0 now2 : ℕ) (m : NewsQuota.APIMetrics),
      m.last_hour_reset = NewsQuota.hourStart t0 →
      m.last_hour_reset + 3600 ≤ now2 →
      m.last_reset_date = NewsQuota.dayOf now2 →
      m.daily_calls < NewsQuota.DAILY_LIMIT →
      NewsQuota.canMakeRequest now2 m =
        (true,
          { total_calls := m.total_calls, daily_calls := m.daily_calls,
            last_reset_date := m.last_reset_date, hourly_calls := 0,
            last_hour_reset := NewsQuota.hourStart now2 })) := by
  refine ⟨WeatherQuota.run_le, ?_, WeatherQuota.can_blocked,
    WeatherQuota.can_rollover, NewsQuota.run_le_hourly, NewsQuota.run_le_daily,
    NewsQuota.can_blocked_hourly, NewsQuota.can_blocked_daily,
    NewsQuota.can_rollover_both, NewsQuota.can_rollover_hour⟩
  intro now
  rw [WeatherQuota.run_replicate now WeatherQuota.WEATHER_HOURLY_LIMIT 0 (by norm_num)]
  congr 1

/-- C7 witness: the weather tracker at hour bucket 7200 — after 10
guarded requests the counter is exactly 10 and a check at 7500 (same
hour) refuses; a check at 10800 (next hour) resets to 0 and allows.
The news tracker: a full hourly counter blocks at 7500; a full daily
counter blocks at 7500; both windows rolled over at 90000 reset both
counters and allow; an hour rollover at 10800 inside day 0 resets the
hourly counter and allows. -/
theorem quota_window_invariant_witness :
    (WeatherQuota.runRequests [0, 3600] ⟨5, 0⟩).hourly_calls ≤ 10
    ∧ WeatherQuota.runRequests (List.replicate 10 7200) ⟨0, 7200⟩ = ⟨10, 7200⟩
    ∧ WeatherQuota.canMakeRequest 7500 ⟨10, 7200⟩ = (false, ⟨10, 7200⟩)
    ∧ WeatherQuota.canMakeRequest 10800 ⟨10, 7200⟩ = (true, ⟨0, 10800⟩)
    ∧ (NewsQuota.runRequests [0, 3600] ⟨0, 7, 0, 3, 0⟩).hourly_calls ≤ 20
    ∧ (NewsQuota.runRequests [0, 3600] ⟨0, 7, 0, 3, 0⟩).daily_calls ≤ 500
    ∧ NewsQuota.canMakeRequest 7500 ⟨25, 30, 0, 20, 7200⟩ =
        (false, ⟨25, 30, 0, 20, 7200⟩)
    ∧ NewsQuota.canMakeRequest 7500 ⟨500, 500, 0, 5, 7200⟩ =
        (false, ⟨500, 500, 0, 5, 7200⟩)
    ∧ NewsQuota.canMakeRequest 90000 ⟨500, 500, 0, 20, 7200⟩ =
        (true, ⟨500, 0, 1, 0, 90000⟩)
    ∧ NewsQuota.canMakeRequest 10800 ⟨30, 30, 0, 20, 7200⟩ =
        (true, ⟨30, 30, 0, 0, 10800⟩) := by
  obtain ⟨w1, w2, w3, w4, n1, n2, n3, n4, n5, n6⟩ := quota_window_invariant
  refine ⟨w1 [0, 3600] ⟨5, 0⟩ (by norm_num [WeatherQuota.WEATHER_HOURLY_LIMIT]),
    w2 7200, w3 7500 ⟨10, 7200⟩ (by norm_num [WeatherQuota.WEATHER_HOURLY_LIMIT]) (by norm_num [WeatherQuota.hourStart]),
    w4 7200 10800 ⟨10, 7200⟩ (by norm_num [WeatherQuota.hourStart]) (by norm_num),
    n1 [0, 3600] ⟨0, 7, 0, 3, 0⟩ (by norm_num [NewsQuota.HOURLY_LIMIT]),
    n2 [0, 3600] ⟨0, 7, 0, 3, 0⟩ (by norm_num [NewsQuota.DAILY_LIMIT]),
    n3 7500 ⟨25, 30, 0, 20, 7200⟩ (by norm_num [NewsQuota.HOURLY_LIMIT]) (by norm_num [NewsQuota.hourStart]) (by norm_num [NewsQuota.dayOf]),
    n4 7500 ⟨500, 500, 0, 5, 7200⟩ (by norm_num [NewsQuota.DAILY_LIMIT]) (by norm_num [NewsQuota.hourStart]) (by norm_num [NewsQuota.dayOf]),
    n5 7200 0 90000 ⟨500, 500, 0, 20, 7200⟩ (by norm_num [NewsQuota.hourStart]) (by norm_num) (by norm_num [NewsQuota.dayOf]) (by norm_num [NewsQuota.dayOf]),
    n6 7200 10800 ⟨30, 30, 0, 20, 7200⟩ (by norm_num [NewsQuota.hourStart]) (by norm_num) (by norm_num [NewsQuota.dayOf]) (by norm_num [NewsQuota.DAILY_LIMIT])⟩



namespace MarketDigest

/-- Deserializing a serialized entry recovers it exactly. -/
theorem loadEntry_saveEntry (e : CacheEntry) : loadEntry (saveEntry e) = some e := by
  cases e with
  | mk d f s a =>
      simp [saveEntry, loadEntry, List.lookup, Json.asRat, Json.asBool, Json.asNat]

/-- Deserializing a serialized cache recovers every entry. -/
theorem loadEntries_save (cache : List (String × CacheEntry)) :
    loadEntries (cache.map fun kv => (kv.1, saveEntry kv.2)) = cache := by
  induction cache with
  | nil => rfl
  | cons kv rest ih =>
      cases kv with
      | mk k e =>
          simp only [List.map_cons, loadEntries, List.filterMap_cons, loadEntry_saveEntry,
            Option.map_some']
          exact congrArg (List.cons (k, e)) (by simpa [loadEntries] using ih)

end MarketDigest

/-- C8: persistence round-trip — saving a cache store and loading it
back yields a store equal to the original, entry for entry:
`MarketDigest._save_cache_to_file` / `_load_cache_from_file` round-trip
every store of entries, and `CacheManager._save_cache_sync` /
`_load_cache_sync` round-trip every JSON-object store (the byte layer
of `json.dump`/`json.load` being abstracted as storing the AST). -/
theorem persistence_round_trip :
    (∀ cache : List (String × MarketDigest.CacheEntry),
      MarketDigest.load_cache_from_file (MarketDigest.save_cache_to_file cache) = cache)
    ∧ (∀ j : Json, j.isObj = true →
      CacheManager.load_cache_sync (CacheManager.save_cache_sync j) = j) := by
  constructor
  · intro cache
    show MarketDigest.loadEntries _ = cache
    exact MarketDigest.loadEntries_save cache
  · intro j hj
    cases j <;> simp_all [CacheManager.load_cache_sync, CacheManager.save_cache_sync,
      Json.isObj]

/-- C8 witness: a concrete one-entry market cache and the default
cache-manager store survive a save/load round trip unchanged. -/
theorem persistence_round_trip_witness :
    MarketDigest.load_cache_from_file (MarketDigest.save_cache_to_file
        [("trending", ⟨Json.num 65000, 100, false, 2⟩)]) =
      [("trending", ⟨Json.num 65000, 100, false, 2⟩)]
    ∧ Json.isObj (Json.obj [("global", Json.obj [])]) = true
    ∧ CacheManager.load_cache_sync (CacheManager.save_cache_sync
        (Json.obj [("global", Json.obj [])])) = Json.obj [("global", Json.obj [])] :=
  ⟨persistence_round_trip.1 _, rfl, persistence_round_trip.2 _ rfl⟩

/-- C9 counterexample: on a missing cache file,
`CacheManager._load_cache_sync` does not return an empty store: it
returns the one-key placeholder `{"global": {}}`. -/
theorem load_missing_store_not_empty :
    CacheManager.load_cache_sync .missing = Json.obj [("global", Json.obj [])]
    ∧ Json.obj [("global", Json.obj [])] ≠ Json.obj [] := by
  refine ⟨rfl, ?_⟩
  simp

/-- C9 (amended): for every file state in which the cache file is
missing, unreadable, or contains corrupt/non-JSON/non-object content,
the loaders return without raising; `NewsDigest._load_cache_from_file`
leaves the in-memory store empty, while `CacheManager._load_cache_sync`
returns the placeholder store `{"global": {}}` — not the empty map, but
one whose only entry is the empty dict, which holds no data and which
`_is_cache_valid` rejects — so the system still cold-starts cleanly. -/
theorem load_cold_start :
    (CacheManager.load_cache_sync .missing = CacheManager.defaultStore)
    ∧ (CacheManager.load_cache_sync .unreadable = CacheManager.defaultStore)
    ∧ (CacheManager.load_cache_sync .corrupt = CacheManager.defaultStore)
    ∧ (∀ j : Json, j.isObj = false →
      CacheManager.load_cache_sync (.parsed j) = CacheManager.defaultStore)
    ∧ (∀ now ttl : ℤ, CacheManager.is_cache_valid now ttl .empty = .ok false)
    ∧ (NewsQuota.load_cache_from_file .missing = [])
    ∧ (NewsQuota.load_cache_from_file .unreadable = [])
    ∧ (NewsQuota.load_cache_from_file .corrupt = [])
    ∧ (∀ j : Json, j.isObj = false →
      NewsQuota.load_cache_from_file (.parsed j) = [])
    ∧ (∀ kvs : List (String × Json), List.lookup "cache" kvs = none →
      NewsQuota.load_cache_from_file (.parsed (.obj kvs)) = []) := by
  refine ⟨rfl, rfl, rfl, fun j hj => ?_, fun _ _ => rfl, rfl, rfl, rfl,
    fun j hj => ?_, fun kvs hk => ?_⟩
  · cases j <;> simp_all [CacheManager.load_cache_sync, Json.isObj]
  · cases j <;> simp_all [NewsQuota.load_cache_from_file, Json.isObj]
  · simp [NewsQuota.load_cache_from_file, hk]

/-- C9 witness: instantiation at an array-valued (non-object) cache
file and at an object file with no `"cache"` key. -/
theorem load_cold_start_witness :
    Json.isObj (Json.arr []) = false
    ∧ CacheManager.load_cache_sync (.parsed (Json.arr [])) = CacheManager.defaultStore
    ∧ NewsQuota.load_cache_from_file (.parsed (Json.arr [])) = []
    ∧ List.lookup "cache" ([("metrics", Json.obj [])] : List (String × Json)) = none
    ∧ NewsQuota.load_cache_from_file (.parsed (.obj [("metrics", Json.obj [])])) = [] :=
  ⟨rfl, (load_cold_start.2.2.2.1 _ rfl), (load_cold_start.2.2.2.2.2.2.2.2.1 _ rfl),
    rfl, (load_cold_start.2.2.2.2.2.2.2.2.2 _ rfl)⟩



/-- Looking up a key just stored by a Python dict update finds the
stored value. -/
theorem lookup_aset (k : String) (v : α) :
    ∀ l : List (String × α), List.lookup k (aset k v l) = some v := by
  intro l
  induction l with
  | nil => simp [aset]
  | cons p rest ih =>
      cases p with
      | mk k' v' =>
          by_cases h : k' = k
          · simp [aset, h]
          · have hb : (k == k') = false := by simp [Ne.symm h]
            simp [aset, h, List.lookup, hb, ih]

namespace MarketDigest

/-- `get_trending` on a valid cache entry returns it without fetching. -/
theorem getTrending_hit (now : ℚ) (fetch : Option Json) (st : MDState)
    (h : is_cache_valid now st.cache "trending" = true) :
    getTrending now fetch st = (st, (List.lookup "trending" st.cache).map fun e => e.data) := by
  simp [getTrending, h]

/-- A failed `get_trending` refresh over a populated entry serves the
old payload and flips its `is_stale` flag in place. -/
theorem getTrending_stale (now : ℚ) (st : MDState) (e : CacheEntry)
    (he : List.lookup "trending" st.cache = some e)
    (hexp : ¬ now - e.fetched_at < 300) :
    getTrending now none st =
      ({ cache := aset "trending" { e with is_stale := true } st.cache,
         fetches := st.fetches + 1 }, some e.data) := by
  have hv : is_cache_valid now st.cache "trending" = false := by
    simp [is_cache_valid, he, ttlFor, CACHE_TTL]
    exact not_lt.1 hexp
  simp [getTrending, hv, he]

/-- A failed `get_trending` refresh on a cold key returns `None` and
leaves the cache untouched. -/
theorem getTrending_cold_fail (now : ℚ) (st : MDState)
    (hcold : List.lookup "trending" st.cache = none) :
    getTrending now none st = ({ st with fetches := st.fetches + 1 }, none) := by
  have hv : is_cache_valid now st.cache "trending" = false := by
    simp [is_cache_valid, hcold]
  simp [getTrending, hv, hcold]

end MarketDigest


namespace CacheManager

/-- Validity of a present global entry is the strict TTL comparison. -/
theorem validG_some (now ttl : ℤ) (g : GEntry) :
    validG now ttl (some g) = decide (now - g.fetched_at < ttl) := by
  by_cases h : now - g.fetched_at < ttl <;> simp [validG, is_cache_valid, h]

/-- Validity of a present weather entry is the strict TTL comparison. -/
theorem validW_some (now ttl : ℤ) (w : WEntry) :
    validW now ttl (some w) = decide (now - w.fetched_at < ttl) := by
  by_cases h : now - w.fetched_at < ttl <;> simp [validW, is_cache_valid, h]

/-- `get_data` with both entries valid serves the cache and fetches
nothing. -/
theorem getData_hit (bg : Bool) (now ttl : ℤ) (fo : FetchOutcome) (st : Store)
    (hg : validG now ttl st.globalE = true) (hw : validW now ttl st.weatherE = true) :
    getData bg now ttl fo st = (st, mkResult st, 0, 0) := by
  simp [getData, hg, hw]

/-- A run of callers over a store whose entries are both valid serves
the same cached result to everyone and never fetches. -/
theorem runGetData_hit (bg : Bool) (now ttl : ℤ) (fo : FetchOutcome) :
    ∀ (m : ℕ) (st : Store),
      validG now ttl st.globalE = true → validW now ttl st.weatherE = true →
      runGetData bg now ttl fo m st = (st, List.replicate m (mkResult st), 0, 0) := by
  intro m
  induction m with
  | zero => intro st hg hw; rfl
  | succ m ih =>
      intro st hg hw
      show (let r1 := getData bg now ttl fo st
            let rest := runGetData bg now ttl fo m r1.1
            (rest.1, r1.2.1 :: rest.2.1, r1.2.2.1 + rest.2.2.1, r1.2.2.2 + rest.2.2.2)) = _
      rw [getData_hit bg now ttl fo st hg hw]
      show (let rest := runGetData bg now ttl fo m st
            (rest.1, mkResult st :: rest.2.1, 0 + rest.2.2.1, 0 + rest.2.2.2)) = _
      rw [ih st hg hw]
      simp [List.replicate_succ]

end CacheManager

namespace MarketDigest

/-- A run of `get_trending` callers over a valid cache entry serves the
same cached payload to everyone and never fetches. -/
theorem runTrending_hit (now : ℚ) (fetch : Option Json) :
    ∀ (m : ℕ) (st : MDState), is_cache_valid now st.cache "trending" = true →
      runTrending now fetch m st =
        (st, List.replicate m ((List.lookup "trending" st.cache).map fun e => e.data)) := by
  intro m
  induction m with
  | zero => intro st h; rfl
  | succ m ih =>
      intro st h
      show (let r1 := getTrending now fetch st
            let rest := runTrending now fetch m r1.1
            (rest.1, r1.2 :: rest.2)) = _
      rw [getTrending_hit now fetch st h]
      show (let rest := runTrending now fetch m st
            (rest.1, _ :: rest.2)) = _
      rw [ih st h]
      simp [List.replicate_succ]

end MarketDigest


/-- C2 counterexample: `CacheManager` with a populated but expired
weather entry holding payload `65000`, every fetch attempt failing (the
shipped fetchers catch their own errors and return `None`, so the
refresh sees a normal `None` return): `get_data` returns a `None`
weather payload, not the previously cached `65000` — the old entry has
been overwritten — and no `is_stale` marking exists in this store. -/
theorem stale_fallback_cm_cex :
    (CacheManager.getData false 1000 300 ⟨.ok none, .ok (none, none, none)⟩
        ⟨some ⟨some (Json.num 1), some (Json.num 2), some (Json.num 3), 0⟩,
          some ⟨some (Json.num 65000), 0⟩⟩).2.1.weather = none
    ∧ (none : Option Json) ≠ some (Json.num 65000) := by
  refine ⟨rfl, ?_⟩
  simp

/-- C2 (amended): stale fallback holds for `MarketDigest.get_trending`
(and the identically-structured `get_global` / `get_fng`): with a
populated but expired `"trending"` entry and a failing fetch, the call
returns the previously cached payload, marks the entry
`is_stale = true` in place, and (every exception being caught inside
`_fetch_coingecko`) returns normally. `CacheManager` entries carry no
`is_stale` flag; its fetchers swallow failures into `None` returns, so
a failed refresh normally overwrites the entry (see the
counterexample); only when the awaited fetch coroutine itself raises
does `_refresh_cache` catch the exception and leave the old entries and
payloads in place — still without any stale marking. -/
theorem stale_fallback (now : ℚ) (st : MarketDigest.MDState) (e : MarketDigest.CacheEntry)
    (tnow ttl : ℤ) (g : CacheManager.GEntry) (w : CacheManager.WEntry)
    (he : List.lookup "trending" st.cache = some e)
    (hexp : ¬ now - e.fetched_at < 300)
    (hg : ¬ tnow - g.fetched_at < ttl) (hw : ¬ tnow - w.fetched_at < ttl) :
    (MarketDigest.getTrending now none st).2 = some e.data
    ∧ List.lookup "trending" (MarketDigest.getTrending now none st).1.cache =
        some { e with is_stale := true }
    ∧ CacheManager.getData false tnow ttl ⟨.error (), .error ()⟩ ⟨some g, some w⟩ =
        (⟨some g, some w⟩, ⟨some g, w.data⟩, 1, 1) := by
  refine ⟨?_, ?_, ?_⟩
  · rw [MarketDigest.getTrending_stale now st e he hexp]
  · rw [MarketDigest.getTrending_stale now st e he hexp]
    exact lookup_aset _ _ _
  · simp [CacheManager.getData, CacheManager.validG_some, CacheManager.validW_some,
      hg, hw, CacheManager.refreshCache, CacheManager.mkResult, CacheManager.weatherData]

/-- C2 witness: a market cache whose `"trending"` entry was fetched at
time 0 holding payload `65000`, queried at time 1000 with a failing
fetch, returns `65000` and re-reads the entry as stale; a cache-manager
store with both entries fetched at 0, queried at 1000 with
TTL 300 and raising fetchers, returns the old global entry and old
weather payload unchanged. -/
theorem stale_fallback_witness :
    (MarketDigest.getTrending 1000 none
        ⟨[("trending", ⟨Json.num 65000, 0, false, 1⟩)], 0⟩).2 = some (Json.num 65000)
    ∧ List.lookup "trending" (MarketDigest.getTrending 1000 none
        ⟨[("trending", ⟨Json.num 65000, 0, false, 1⟩)], 0⟩).1.cache =
        some ⟨Json.num 65000, 0, true, 1⟩
    ∧ CacheManager.getData false 1000 300 ⟨.error (), .error ()⟩
        ⟨some ⟨some (Json.num 1), none, none, 0⟩, some ⟨some (Json.num 65000), 0⟩⟩ =
        (⟨some ⟨some (Json.num 1), none, none, 0⟩, some ⟨some (Json.num 65000), 0⟩⟩,
          ⟨some ⟨some (Json.num 1), none, none, 0⟩, some (Json.num 65000)⟩, 1, 1) :=
  stale_fallback 1000 ⟨[("trending", ⟨Json.num 65000, 0, false, 1⟩)], 0⟩
    ⟨Json.num 65000, 0, false, 1⟩ 1000 300
    ⟨some (Json.num 1), none, none, 0⟩ ⟨some (Json.num 65000), 0⟩
    rfl (by norm_num) (by norm_num) (by norm_num)

/-- C3 counterexample: on a cold store with every fetch failing (the
fetchers return `None`), `CacheManager._refresh_cache` writes a
fabricated weather entry `{"data": None, "fetched_at": now}` into the
cache store — the store is no longer empty — contradicting the claim
that no `None` payload stamped with a fresh `fetched_at` is written. -/
theorem cold_key_fabrication_cex :
    (CacheManager.getData false 1000 300 ⟨.ok none, .ok (none, none, none)⟩
        ⟨none, none⟩).1.weatherE = some ⟨none, 1000⟩
    ∧ some (⟨none, 1000⟩ : CacheManager.WEntry) ≠ none := by
  refine ⟨rfl, ?_⟩
  simp

/-- C3 (amended): on a cold key whose refresh fails,
`MarketDigest.get_trending` reports the explicit unavailable result
`None` and writes nothing into its cache; `CacheManager`, whose
fetchers return `None` instead of raising, instead writes fabricated
entries — a weather entry with a `None` payload and a global entry
whose `crypto`/`fiat`/`news` are all `None`, each stamped with a fresh
`fetched_at` — into the store, and returns their `None` payloads rather
than a distinguished unavailable signal. -/
theorem cold_key_unavailable (now : ℚ) (st : MarketDigest.MDState) (tnow ttl : ℤ)
    (hcold : List.lookup "trending" st.cache = none) :
    (MarketDigest.getTrending now none st).2 = none
    ∧ (MarketDigest.getTrending now none st).1.cache = st.cache
    ∧ CacheManager.getData false tnow ttl ⟨.ok none, .ok (none, none, none)⟩
        ⟨none, none⟩ =
      (⟨some ⟨none, none, none, tnow⟩, some ⟨none, tnow⟩⟩,
        ⟨some ⟨none, none, none, tnow⟩, none⟩, 1, 1) := by
  refine ⟨?_, ?_, rfl⟩
  · rw [MarketDigest.getTrending_cold_fail now st hcold]
  · rw [MarketDigest.getTrending_cold_fail now st hcold]

/-- C3 witness: a cold market cache queried at time 1000 with a failing
fetch returns `None` and stays empty; a cold cache-manager store
queried at time 77 stores the fabricated `None`-payload entries
stamped 77. -/
theorem cold_key_unavailable_witness :
    (MarketDigest.getTrending 1000 none ⟨[], 0⟩).2 = none
    ∧ (MarketDigest.getTrending 1000 none ⟨[], 0⟩).1.cache = []
    ∧ CacheManager.getData false 77 300 ⟨.ok none, .ok (none, none, none)⟩
        ⟨none, none⟩ =
      (⟨some ⟨none, none, none, 77⟩, some ⟨none, 77⟩⟩,
        ⟨some ⟨none, none, none, 77⟩, none⟩, 1, 1) :=
  cold_key_unavailable 1000 ⟨[], 0⟩ 77 300 rfl


/-- Unfolding one caller of the cache-manager run. -/
theorem runGetData_succ (bg : Bool) (now ttl : ℤ) (fo : CacheManager.FetchOutcome)
    (n : ℕ) (st : CacheManager.Store) :
    CacheManager.runGetData bg now ttl fo (n + 1) st =
      ((CacheManager.runGetData bg now ttl fo n (CacheManager.getData bg now ttl fo st).1).1,
        (CacheManager.getData bg now ttl fo st).2.1 ::
          (CacheManager.runGetData bg now ttl fo n (CacheManager.getData bg now ttl fo st).1).2.1,
        (CacheManager.getData bg now ttl fo st).2.2.1 +
          (CacheManager.runGetData bg now ttl fo n (CacheManager.getData bg now ttl fo st).1).2.2.1,
        (CacheManager.getData bg now ttl fo st).2.2.2 +
          (CacheManager.runGetData bg now ttl fo n (CacheManager.getData bg now ttl fo st).1).2.2.2) := rfl

/-- Unfolding one caller of the market-digest run. -/
theorem runTrending_succ (now : ℚ) (fetch : Option Json) (n : ℕ) (st : MarketDigest.MDState) :
    MarketDigest.runTrending now fetch (n + 1) st =
      ((MarketDigest.runTrending now fetch n (MarketDigest.getTrending now fetch st).1).1,
        (MarketDigest.getTrending now fetch st).2 ::
          (MarketDigest.runTrending now fetch n (MarketDigest.getTrending now fetch st).1).2) := rfl

/-- C4: single-flight per key — `n ≥ 1` concurrent callers for a cold
key, serialized by the per-instance `asyncio.Lock` around the blocking
refresh path (cooperative scheduling: the critical section runs under
the lock, later callers re-check the now-populated cache after
acquiring it), trigger exactly one provider fetch and all receive the
fetched payload: for `MarketDigest.get_trending` the CoinGecko call
count ends at 1 and every caller gets the fetched data; for
`CacheManager.get_data` exactly one weather fetch and one global fetch
are made and every caller receives the same freshly assembled result. -/
theorem single_flight (n : ℕ) (now : ℚ) (d : Json) (tnow ttl : ℤ)
    (w c f nw : Json) (hn : 1 ≤ n) (httl : 0 < ttl) :
    (MarketDigest.runTrending now (some d) n ⟨[], 0⟩).1.fetches = 1
    ∧ (MarketDigest.runTrending now (some d) n ⟨[], 0⟩).2 = List.replicate n (some d)
    ∧ (CacheManager.runGetData false tnow ttl
        ⟨.ok (some w), .ok (some c, some f, some nw)⟩ n ⟨none, none⟩).2.2 = (1, 1)
    ∧ (CacheManager.runGetData false tnow ttl
        ⟨.ok (some w), .ok (some c, some f, some nw)⟩ n ⟨none, none⟩).2.1 =
      List.replicate n
        (⟨some ⟨some c, some f, some nw, tnow⟩, some w⟩ : CacheManager.GDResult) := by
  obtain ⟨m, rfl⟩ : ∃ m, n = m + 1 := ⟨n - 1, by omega⟩
  have hvalid : MarketDigest.is_cache_valid now
      [("trending", (⟨d, now, false, 1⟩ : MarketDigest.CacheEntry))] "trending" = true := by
    simp [MarketDigest.is_cache_valid, MarketDigest.ttlFor, MarketDigest.CACHE_TTL]
  have hstep : MarketDigest.getTrending now (some d) ⟨[], 0⟩ =
      (⟨[("trending", ⟨d, now, false, 1⟩)], 1⟩, some d) := rfl
  have hmd : MarketDigest.runTrending now (some d) (m + 1) ⟨[], 0⟩ =
      ((⟨[("trending", ⟨d, now, false, 1⟩)], 1⟩ : MarketDigest.MDState),
        some d :: List.replicate m (some d)) := by
    rw [runTrending_succ, hstep]
    rw [MarketDigest.runTrending_hit now (some d) m _ hvalid]
    simp [List.lookup]
  have hgv : CacheManager.validG tnow ttl
      (some ⟨some c, some f, some nw, tnow⟩) = true := by
    simp [CacheManager.validG_some, httl]
  have hwv : CacheManager.validW tnow ttl (some ⟨some w, tnow⟩) = true := by
    simp [CacheManager.validW_some, httl]
  have hfirst : CacheManager.getData false tnow ttl
      ⟨.ok (some w), .ok (some c, some f, some nw)⟩ ⟨none, none⟩ =
      (⟨some ⟨some c, some f, some nw, tnow⟩, some ⟨some w, tnow⟩⟩,
        ⟨some ⟨some c, some f, some nw, tnow⟩, some w⟩, 1, 1) := rfl
  have hcm : CacheManager.runGetData false tnow ttl
      ⟨.ok (some w), .ok (some c, some f, some nw)⟩ (m + 1) ⟨none, none⟩ =
      ((⟨some ⟨some c, some f, some nw, tnow⟩, some ⟨some w, tnow⟩⟩ : CacheManager.Store),
        (⟨some ⟨some c, some f, some nw, tnow⟩, some w⟩ : CacheManager.GDResult) ::
          List.replicate m ⟨some ⟨some c, some f, some nw, tnow⟩, some w⟩, 1, 1) := by
    rw [runGetData_succ, hfirst]
    rw [CacheManager.runGetData_hit false tnow ttl _ m _ hgv hwv]
    simp [CacheManager.mkResult, CacheManager.weatherData]
  rw [hmd, hcm]
  exact ⟨rfl, by simp [List.replicate_succ], rfl, by simp [List.replicate_succ]⟩

/-- C4 witness: three serialized callers at concrete times — the
market cache ends with exactly 1 CoinGecko fetch and all three callers
get the payload; the cache-manager store ends with exactly 1 weather
and 1 global fetch and all three callers get the same fresh result. -/
theorem single_flight_witness :
    (MarketDigest.runTrending 500 (some (Json.num 7)) 3 ⟨[], 0⟩).1.fetches = 1
    ∧ (MarketDigest.runTrending 500 (some (Json.num 7)) 3 ⟨[], 0⟩).2 =
        List.replicate 3 (some (Json.num 7))
    ∧ (CacheManager.runGetData false 80 300
        ⟨.ok (some (Json.num 1)), .ok (some (Json.num 2), some (Json.num 3), some (Json.num 4))⟩
        3 ⟨none, none⟩).2.2 = (1, 1)
    ∧ (CacheManager.runGetData false 80 300
        ⟨.ok (some (Json.num 1)), .ok (some (Json.num 2), some (Json.num 3), some (Json.num 4))⟩
        3 ⟨none, none⟩).2.1 =
      List.replicate 3
        (⟨some ⟨some (Json.num 2), some (Json.num 3), some (Json.num 4), 80⟩,
          some (Json.num 1)⟩ : CacheManager.GDResult) :=
  single_flight 3 500 (Json.num 7) 80 300 (Json.num 1) (Json.num 2) (Json.num 3)
    (Json.num 4) (by norm_num) (by norm_num)

end InfoHub
